import Mathlib

/-!
Verification of the llm-cost-profiler repository: the call-attribution and
tracking engine (Tracker/Ledger, interceptor, @profile decorator, session
context manager, provider patches, pricing table).

Conventions of the embedding:
* Python strings are Lean `String`s; `str.lower()` is modelled on ASCII.
* Python floats carrying USD costs and durations are modelled as `ℚ`
  (the pricing arithmetic in `pricing.py` is decimal arithmetic on table
  constants; `ℚ` keeps it exact).
* Token counts are `ℕ`.
* Mutable module-level state (`interceptor._current_function`,
  `interceptor._active`, `providers.openai._patched`, the tracker bound by
  the patched closure, and the contents of every `Tracker`) is gathered in
  an explicit state record; each Python operation becomes a state
  transformer translated line by line from the source.
-/

namespace LLMSpy

/-! ## Pricing (`src/llmspy/pricing.py`) -/

/-- The static `PRICING` table, in source (insertion) order:
model name ↦ (input price per 1M tokens, output price per 1M tokens). -/
def PRICING : List (String × ℚ × ℚ) :=
  [ ("claude-opus-4-6",            (15.00,  75.00)),
    ("claude-opus-4-5",            (15.00,  75.00)),
    ("claude-sonnet-4-6",          ( 3.00,  15.00)),
    ("claude-sonnet-4-5",          ( 3.00,  15.00)),
    ("claude-haiku-4-5",           ( 0.80,   4.00)),
    ("claude-haiku-4-5-20251001",  ( 0.80,   4.00)),
    ("claude-3-5-sonnet-20241022", ( 3.00,  15.00)),
    ("claude-3-5-haiku-20241022",  ( 0.80,   4.00)),
    ("claude-3-opus-20240229",     (15.00,  75.00)),
    ("claude-3-sonnet-20240229",   ( 3.00,  15.00)),
    ("claude-3-haiku-20240307",    ( 0.25,   1.25)),
    ("gpt-4o",                     ( 2.50,  10.00)),
    ("gpt-4o-2024-11-20",          ( 2.50,  10.00)),
    ("gpt-4o-mini",                ( 0.15,   0.60)),
    ("gpt-4o-mini-2024-07-18",     ( 0.15,   0.60)),
    ("o1",                         (15.00,  60.00)),
    ("o1-mini",                    ( 3.00,  12.00)),
    ("o3-mini",                    ( 1.10,   4.40)),
    ("gpt-4-turbo",                (10.00,  30.00)),
    ("gpt-4",                      (30.00,  60.00)),
    ("gpt-3.5-turbo",              ( 0.50,   1.50)),
    ("gemini-1.5-pro",             ( 1.25,   5.00)),
    ("gemini-1.5-flash",           ( 0.075,  0.30)),
    ("gemini-1.5-flash-8b",        ( 0.0375, 0.15)),
    ("gemini-2.0-flash-exp",       ( 0.075,  0.30)),
    ("gemini-2.0-flash",           ( 0.10,   0.40)),
    ("llama-3.1-70b-instruct",     ( 0.88,   0.88)),
    ("llama-3.1-8b-instruct",      ( 0.20,   0.20)),
    ("mistral-large-latest",       ( 2.00,   6.00)),
    ("mistral-small-latest",       ( 0.20,   0.60)) ]

/-- ASCII model of Python `str.lower()` (all model names are ASCII). -/
def lowerStr (s : String) : String := ⟨s.data.map Char.toLower⟩

/-- The match `_lookup` tries for each table key after the exact lookup
fails: `model_lower.startswith(key) or key.startswith(model_lower)`. -/
def relatedKey (modelLower key : String) : Bool :=
  key.data.isPrefixOf modelLower.data || modelLower.data.isPrefixOf key.data

/-- `_lookup(model_lower)`: exact match first, then the first key of the
table (in insertion order) related by prefix in either direction. -/
def lookupPrice (modelLower : String) : Option (ℚ × ℚ) :=
  match PRICING.find? (fun kv => kv.1 == modelLower) with
  | some kv => some kv.2
  | none => (PRICING.find? (fun kv => relatedKey modelLower kv.1)).map (·.2)

/-- `calculate(model, input_tokens, output_tokens)`. -/
def calculate (model : String) (input_tokens output_tokens : ℕ) : ℚ :=
  match lookupPrice (lowerStr model) with
  | none => 0
  | some p => ((input_tokens : ℚ) * p.1 + (output_tokens : ℚ) * p.2) / 1000000

/-! ## The `CallRecord` / `UsageEvent` data entity (spec §3, `tracker.py`) -/

/-- One usage event, field for field the `CallRecord` the provider adapters
construct (`providers/openai.py`, `providers/google.py`, tests). USD amounts
and durations are `ℚ`, token counts `ℕ`. -/
structure CallRecord where
  function_name : String
  call_stack : List String
  model : String
  provider : String
  input_tokens : ℕ
  output_tokens : ℕ
  cost_usd : ℚ
  duration_ms : ℚ
  deriving DecidableEq

/-! ## The Ledger (`Tracker`) -/

/-- Modelled from the spec: `tracker.py` is not under `src/` (only its tests
and callers are). Per spec §3/§4.1 a `Tracker` owns a totally ordered
sequence of events, insertion order = sequence order; the in-memory ledger
is that list. -/
abbrev Ledger := List CallRecord

/-- A `Tracker()` starts empty. -/
def emptyLedger : Ledger := []

/-- Modelled from the spec: `Tracker.record(event)` appends under exclusive
access (the tracker's lock, spec §4.1), hence one atomic append. -/
def record (l : Ledger) (e : CallRecord) : Ledger := l ++ [e]

/-- Modelled from the spec: `Tracker.records()` returns the full ordered
sequence as of the call. -/
def records (l : Ledger) : List CallRecord := l

/-- Modelled from the spec: `Tracker.total_calls()`. -/
def total_calls (l : Ledger) : ℕ := l.length

/-- Modelled from the spec: `Tracker.total_cost()`. -/
def total_cost (l : Ledger) : ℚ := (l.map (·.cost_usd)).sum

/-- Modelled from the spec: `Tracker.total_tokens()` — input+output summed
across all events. -/
def total_tokens (l : Ledger) : ℕ :=
  (l.map (fun r => r.input_tokens + r.output_tokens)).sum

/-- Modelled from the spec: `Tracker.reset()` clears the in-memory
sequence. -/
def resetLedger (_ : Ledger) : Ledger := []

/-- Modelled from the spec: cost grouped by a key (`cost_by_function()` /
`cost_by_model()`): mapping from each key occurring in the ledger to the
summed cost of the events sharing that key. -/
def costBy (f : CallRecord → String) (l : Ledger) : List (String × ℚ) :=
  (l.map f).dedup.map fun k =>
    (k, ((l.filter fun r => f r == k).map (·.cost_usd)).sum)

/-- Modelled from the spec: `Tracker.cost_by_function()`. -/
def cost_by_function : Ledger → List (String × ℚ) := costBy (·.function_name)

/-- Modelled from the spec: `Tracker.cost_by_model()`. -/
def cost_by_model : Ledger → List (String × ℚ) := costBy (·.model)

/-! ## Durable persistence (`Tracker(persist_path=...)`, SQLite adapter) -/

/-- Modelled from the spec: the durable backing stores, one per path
(paths abstracted to `ℕ`); `none` = the store does not exist yet, `some
rows` = an ordered log of events. -/
def FileStore := ℕ → Option (List CallRecord)

/-- In-memory ledger plus the tracker's optional bound durable path. -/
structure TrackerState where
  mem : Ledger
  persistPath : Option ℕ

/-- Point update of the backing-store map. -/
def updateStore (fs : FileStore) (p : ℕ) (v : List CallRecord) : FileStore :=
  fun q => if q = p then some v else fs q

/-- Modelled from the spec: `Tracker(persist_path=p)` — `_init_db` creates
the backing store (and missing parent directories) when absent and keeps
existing rows. -/
def newTracker (p : ℕ) (fs : FileStore) : TrackerState × FileStore :=
  ({ mem := emptyLedger, persistPath := some p },
   updateStore fs p ((fs p).getD []))

/-- Modelled from the spec: `record` with a bound durable store appends
in-memory and durably, flushing on write. -/
def trackerRecord (t : TrackerState) (fs : FileStore) (e : CallRecord) :
    TrackerState × FileStore :=
  ({ t with mem := record t.mem e },
   match t.persistPath with
   | none => fs
   | some p => updateStore fs p ((fs p).getD [] ++ [e]))

/-- Modelled from the spec: `Tracker.load_from_db()` — all persisted rows in
original insertion order, `[]` when no store is bound or the backing store
does not exist. -/
def load_from_db (t : TrackerState) (fs : FileStore) : List CallRecord :=
  match t.persistPath with
  | none => []
  | some p => (fs p).getD []

/-- Run a sequence of `record` calls through a persisting tracker. -/
def runRecords (s : TrackerState × FileStore) (es : List CallRecord) :
    TrackerState × FileStore :=
  es.foldl (fun s e => trackerRecord s.1 s.2 e) s

/-! ## Interceptor and profiler state
(`src/llmspy/interceptor.py`, `src/tokenspy/profiler.py`,
`src/tokenspy/providers/openai.py`) -/

/-- Trackers are identified by id; id `0` is the process-global tracker
returned by `get_global_tracker()`. -/
abbrev TrackerId := ℕ

/-- The mutable module-level state the interceptor protocol runs on:
`_current_function[0]` (the one-element shared list), `_active`, the
provider's `_patched` flag, the tracker captured by the patched closure at
patch time, and the contents of every tracker. -/
structure InterceptorState where
  currentFunction : String
  activeFlag : Bool
  patched : Bool
  bound : Option TrackerId
  ledgers : TrackerId → Ledger

/-- `providers.openai.patch(tracker, _current_function)`: returns early when
`_patched` is already set (keeping the previously captured tracker),
otherwise installs the closure capturing `tracker`. -/
def patchProvider (t : TrackerId) (s : InterceptorState) : InterceptorState :=
  if s.patched then s else { s with patched := true, bound := some t }

/-- `interceptor.activate(tracker)`: patch the providers, then set
`_active = True`. -/
def activate (t : TrackerId) (s : InterceptorState) : InterceptorState :=
  { patchProvider t s with activeFlag := true }

/-- `interceptor.deactivate()`: `unpatch()` restores the original SDK
methods and clears `_patched`; then `_active = False`. -/
def deactivate (s : InterceptorState) : InterceptorState :=
  { s with patched := false, bound := none, activeFlag := false }

/-- `interceptor.set_current_function(name)`: overwrite the single shared
slot `_current_function[0]`. -/
def set_current_function (name : String) (s : InterceptorState) : InterceptorState :=
  { s with currentFunction := name }

/-- Point update of the tracker-contents map. -/
def updateLedger (f : TrackerId → Ledger) (t : TrackerId) (v : Ledger) :
    TrackerId → Ledger :=
  fun q => if q = t then v else f q

/-- Shape of the OpenAI response as read by `_record`:
`getattr(response, "usage", None)`, then
`getattr(usage, "prompt_tokens", 0) or 0` and
`getattr(usage, "completion_tokens", 0) or 0`. -/
structure OpenAIUsage where
  prompt_tokens : Option ℕ
  completion_tokens : Option ℕ
  deriving DecidableEq

structure OpenAIResponse where
  usage : Option OpenAIUsage
  deriving DecidableEq

/-- `providers.openai._record(tracker, current_function, response, kwargs,
duration_ms, "openai")`, returning the tracker's new contents. The whole
body sits in `try: ... except Exception: pass`; `exn` models an exception
raised anywhere inside that body — the ledger is then left unchanged. -/
def openaiRecord (ledger : Ledger) (current_function : List String)
    (resp : OpenAIResponse) (model : String) (duration_ms : ℚ) (exn : Bool) :
    Ledger :=
  if exn then ledger
  else
    match resp.usage with
    | none => ledger
    | some u =>
        let it := u.prompt_tokens.getD 0
        let ot := u.completion_tokens.getD 0
        record ledger
          { function_name := current_function.headD "<unknown>",
            call_stack := current_function,
            model := model,
            provider := "openai",
            input_tokens := it,
            output_tokens := ot,
            cost_usd := calculate model it ot,
            duration_ms := duration_ms }

/-- One call to `Completions.create(model=..., ...)` whose underlying
request yields `resp`. While the patch is installed the SDK attribute holds
`_patched_create`: it runs the original method, calls `_record` with the
shared `_current_function` list (a one-element list), and returns the
original `resp`; with the patch removed the original method runs and
nothing is recorded. -/
def openaiCall (s : InterceptorState) (resp : OpenAIResponse) (model : String)
    (duration_ms : ℚ) (exn : Bool) : OpenAIResponse × InterceptorState :=
  if s.patched then
    match s.bound with
    | some t =>
        let l := openaiRecord (s.ledgers t) [s.currentFunction] resp model duration_ms exn
        (resp, { s with ledgers := updateLedger s.ledgers t l })
    | none => (resp, s)
  else (resp, s)

/-- The `@profile` wrapper (`profiler.py`): `activate(get_global_tracker())`;
save `prev`; set the current function to the wrapped function's qualname;
run the body; in `finally`, restore `prev`. The body is a state transformer
whose `Bool` result records whether it raised; the `finally` restoration
runs either way and the wrapper re-raises. -/
def profileRun (qualname : String)
    (body : InterceptorState → InterceptorState × Bool)
    (s : InterceptorState) : InterceptorState × Bool :=
  let s1 := activate 0 s
  let prev := s1.currentFunction
  let r := body (set_current_function qualname s1)
  (set_current_function prev r.1, r.2)

/-- `Session.__enter__` for a session whose private `Tracker()` has id `t`:
`activate(self._tracker)` then `set_current_function(self.name)`. -/
def sessionEnter (t : TrackerId) (name : String) (s : InterceptorState) :
    InterceptorState :=
  set_current_function name (activate t s)

/-- `Session.__exit__`: snapshot `self._tracker.records()` (no interceptor
state change), then `deactivate()` — unconditionally. -/
def sessionExit (s : InterceptorState) : InterceptorState :=
  deactivate s

/-! ## Provider patch/unpatch module state (C10) -/

/-- Module-level state of `tokenspy/providers/openai.py` over an abstract
type `α` of function objects: the two live SDK attributes
(`Completions.create`, `AsyncCompletions.create`), the saved originals, and
`_patched`. -/
structure OpenAIModule (α : Type) where
  create : α
  acreate : α
  origCreate : Option α
  origAcreate : Option α
  patched : Bool
  deriving DecidableEq

/-- `providers.openai.patch`: `sdkOk` is whether `import openai` succeeds,
`asyncOk` whether the async best-effort block completes, `pc`/`pa` the two
freshly created patched closures. Returns the new module state and the
boolean the function returns. -/
def patchOpenAI (sdkOk asyncOk : Bool) (pc pa : α) (m : OpenAIModule α) :
    OpenAIModule α × Bool :=
  if ¬ sdkOk then (m, false)
  else if m.patched then (m, true)
  else
    ({ create := pc,
       acreate := if asyncOk then pa else m.acreate,
       origCreate := some m.create,
       origAcreate := if asyncOk then some m.acreate else m.origAcreate,
       patched := true }, true)

/-- `providers.openai.unpatch`: early return when not patched; otherwise
restore each saved original that is not `None` (skipped entirely when
importing the SDK inside the `try` fails), then always clear `_patched` and the saved
originals. -/
def unpatchOpenAI (sdkOk : Bool) (m : OpenAIModule α) : OpenAIModule α :=
  if ¬ m.patched then m
  else
    { create := if sdkOk then m.origCreate.getD m.create else m.create,
      acreate := if sdkOk then m.origAcreate.getD m.acreate else m.acreate,
      origCreate := none,
      origAcreate := none,
      patched := false }

/-- Module-level state of `tokenspy/providers/google.py`:
`GenerativeModel.generate_content`, `_original_generate`, `_patched`. -/
structure GoogleModule (α : Type) where
  generate_content : α
  origGenerate : Option α
  patched : Bool
  deriving DecidableEq

/-- `providers.google.patch`. -/
def patchGoogle (sdkOk : Bool) (pg : α) (m : GoogleModule α) :
    GoogleModule α × Bool :=
  if ¬ sdkOk then (m, false)
  else if m.patched then (m, true)
  else ({ generate_content := pg,
          origGenerate := some m.generate_content,
          patched := true }, true)

/-- `providers.google.unpatch`. -/
def unpatchGoogle (sdkOk : Bool) (m : GoogleModule α) : GoogleModule α :=
  if ¬ m.patched then m
  else { generate_content :=
           if sdkOk then m.origGenerate.getD m.generate_content
           else m.generate_content,
         origGenerate := none,
         patched := false }

/-! ## Concurrency model for the Ledger (C6) -/

/-- `ops` is an interleaving of the per-writer `record`-call sequences `ls`:
at every step some writer issues its next pending call. Because each
`record` runs under the tracker's lock, an entire multi-threaded run is an
interleaving of atomic appends. -/
inductive IsInterleaving : List (List CallRecord) → List CallRecord → Prop where
  | done (ls : List (List CallRecord)) (h : ∀ l ∈ ls, l = []) :
      IsInterleaving ls []
  | step (ls : List (List CallRecord)) (i : ℕ) (x : CallRecord)
      (xs : List CallRecord) (ops : List CallRecord)
      (hget : ls.get? i = some (x :: xs))
      (hrec : IsInterleaving (ls.set i xs) ops) :
      IsInterleaving ls (x :: ops)

/-! ## Concrete scenario data -/

/-- Fresh process state: `_current_function = ["<unknown>"]`, nothing
active, nothing patched, every tracker empty. -/
def initState : InterceptorState :=
  { currentFunction := "<unknown>", activeFlag := false, patched := false,
    bound := none, ledgers := fun _ => emptyLedger }

/-- An OpenAI response with a usage payload of 5 prompt / 7 completion
tokens. -/
def okResp : OpenAIResponse :=
  { usage := some { prompt_tokens := some 5, completion_tokens := some 7 } }

/-- A profiled-function body that performs one successful OpenAI call and
returns normally. -/
def callBody (resp : OpenAIResponse) (model : String) :
    InterceptorState → InterceptorState × Bool :=
  fun s => ((openaiCall s resp model 1 false).2, false)

/-- Body of the outer profiled function `A` in the nested scenario: call
the profiled function `B` (which performs one provider call), then — after
`B` has returned — perform a second provider call while still inside `A`. -/
def outerBody (resp : OpenAIResponse) (model : String) :
    InterceptorState → InterceptorState × Bool :=
  fun s =>
    let r := profileRun "B" (callBody resp model) s
    ((openaiCall r.1 resp model 2 false).2, false)

/-- The default record of the tracker tests (`_make_record()` in
`tests/test_tracker.py`). -/
def sampleRec : CallRecord :=
  { function_name := "test_fn", call_stack := ["test_fn"], model := "gpt-4o",
    provider := "openai", input_tokens := 1000, output_tokens := 200,
    cost_usd := 0.004, duration_ms := 350 }

/-- The record of the persistence test (`cost_usd=0.042`). -/
def persistedRec : CallRecord :=
  { function_name := "persisted_fn", call_stack := ["test_fn"],
    model := "gpt-4o", provider := "openai", input_tokens := 1000,
    output_tokens := 200, cost_usd := 0.042, duration_ms := 350 }

/-- A filesystem on which no backing store exists yet. -/
def emptyFS : FileStore := fun _ => none

/-! ## Helper lemmas -/

/-- Executing a sequence of `record` calls appends the events in order. -/
theorem foldl_record (es : List CallRecord) (init : Ledger) :
    es.foldl record init = init ++ es := by
  induction es generalizing init with
  | nil => simp
  | cons e es ih => simp [record, ih]

/-- Summing an indicator over a duplicate-free key list that contains the
key yields the single contribution. -/
theorem sum_map_ite_eq (ks : List String) (a : String) (c : ℚ)
    (hnd : ks.Nodup) (ha : a ∈ ks) :
    (ks.map fun k => if a == k then c else 0).sum = c := by
  induction ks with
  | nil => cases ha
  | cons k ks ih =>
    rw [List.map_cons, List.sum_cons]
    rcases List.mem_cons.mp ha with h | h
    · subst h
      have hzero : ((ks.map fun k => if a == k then c else 0)).sum = 0 := by
        apply List.sum_eq_zero
        intro x hx
        obtain ⟨k', hk', he⟩ := List.mem_map.mp hx
        have hne : a ≠ k' := fun he2 => (List.nodup_cons.mp hnd).1 (he2 ▸ hk')
        simp [hne] at he
        exact he.symm
      rw [hzero]
      simp
    · have hk : a ≠ k := by
        intro he
        exact (List.nodup_cons.mp hnd).1 (he ▸ h)
      rw [ih (List.nodup_cons.mp hnd).2 h]
      simp [hk]

/-- Pointwise addition distributes over a mapped list sum. -/
theorem sum_map_add (ks : List String) (u v : String → ℚ) :
    (ks.map fun k => u k + v k).sum = (ks.map u).sum + (ks.map v).sum := by
  induction ks with
  | nil => simp
  | cons k ks ih =>
    simp only [List.map_cons, List.sum_cons, ih]
    ring

/-- Partitioning a list's elements by a duplicate-free covering key list and
summing the groups reproduces the total sum. -/
theorem sum_groups (f : CallRecord → String) (g : CallRecord → ℚ)
    (l : List CallRecord) :
    ∀ (ks : List String), ks.Nodup → (∀ r ∈ l, f r ∈ ks) →
      (ks.map fun k => ((l.filter fun r => f r == k).map g).sum).sum
        = (l.map g).sum := by
  induction l with
  | nil => intro ks _ _; simp
  | cons r l ih =>
    intro ks hnd hmem
    have hr : f r ∈ ks := hmem r (List.mem_cons_self r l)
    have hl : ∀ x ∈ l, f x ∈ ks := fun x hx => hmem x (List.mem_cons_of_mem _ hx)
    have expand : (ks.map fun k => (((r :: l).filter fun x => f x == k).map g).sum)
        = ks.map fun k => (if f r == k then g r else 0)
            + ((l.filter fun x => f x == k).map g).sum := by
      apply List.map_congr_left
      intro k _
      by_cases h : f r = k
      · simp [List.filter_cons, h]
      · simp [List.filter_cons, h]
    rw [expand, sum_map_add, sum_map_ite_eq ks (f r) (g r) hnd hr,
      ih ks hnd hl]
    simp

/-- The per-key cost groups of `costBy` sum to the total cost. -/
theorem costBy_sum (f : CallRecord → String) (l : Ledger) :
    ((costBy f l).map (·.2)).sum = total_cost l := by
  unfold costBy total_cost
  rw [List.map_map]
  exact sum_groups f (·.cost_usd) l (l.map f).dedup (List.nodup_dedup _)
    (fun r hr => List.mem_dedup.mpr (List.mem_map_of_mem f hr))

/-- Taking one element out of writer `i`'s pending list lowers the pending
length sum by one. -/
theorem set_length_sum (ls : List (List CallRecord)) (i : ℕ) (x : CallRecord)
    (xs : List CallRecord) (h : ls.get? i = some (x :: xs)) :
    ((ls.set i xs).map List.length).sum + 1 = (ls.map List.length).sum := by
  induction ls generalizing i with
  | nil => simp at h
  | cons l ls ih =>
    cases i with
    | zero =>
        simp only [List.get?] at h
        injection h with h
        subst h
        simp only [List.set, List.map_cons, List.sum_cons, List.length_cons]
        omega
    | succ i =>
        simp only [List.get?] at h
        have := ih i h
        simp only [List.set, List.map_cons, List.sum_cons]
        omega

/-- An interleaving of the writers' call sequences contains exactly all
their calls: its length is the sum of the writers' lengths. -/
theorem interleaving_length {ls : List (List CallRecord)}
    {ops : List CallRecord} (h : IsInterleaving ls ops) :
    ops.length = (ls.map List.length).sum := by
  induction h with
  | done ls h =>
      symm
      apply List.sum_eq_zero
      intro x hx
      obtain ⟨l, hl, he⟩ := List.mem_map.mp hx
      rw [h l hl] at he
      simp at he
      omega
  | step ls i x xs ops hget hrec ih =>
      have := set_length_sum ls i x xs hget
      simp only [List.length_cons, ih]
      omega

/-- If every writer issues `M` calls, the pending length sum is `N * M`. -/
theorem sum_const_length (ls : List (List CallRecord)) (M : ℕ)
    (h : ∀ w ∈ ls, w.length = M) : (ls.map List.length).sum = ls.length * M := by
  induction ls with
  | nil => simp
  | cons w ls ih =>
    simp only [List.map_cons, List.sum_cons, List.length_cons,
      h w (List.mem_cons_self w ls), ih (fun w hw => h w (List.mem_cons_of_mem _ hw))]
    ring

/-- Recording through a tracker bound to path `p` appends every event, in
order, to the backing store at `p`, and keeps the binding. -/
theorem runRecords_store (es : List CallRecord) :
    ∀ (t : TrackerState) (fs : FileStore) (p : ℕ) (acc : List CallRecord),
      t.persistPath = some p → fs p = some acc →
      (runRecords (t, fs) es).2 p = some (acc ++ es) ∧
        (runRecords (t, fs) es).1.persistPath = some p := by
  induction es with
  | nil =>
      intro t fs p acc hp hacc
      simpa [runRecords, hp] using hacc
  | cons e es ih =>
      intro t fs p acc hp hacc
      have hstep : runRecords (t, fs) (e :: es)
          = runRecords ({ t with mem := record t.mem e },
              updateStore fs p (acc ++ [e])) es := by
        simp [runRecords, trackerRecord, hp, hacc]
      rw [hstep]
      have h1 : ({ t with mem := record t.mem e } : TrackerState).persistPath
          = some p := hp
      have h2 : updateStore fs p (acc ++ [e]) p = some (acc ++ [e]) := by
        simp [updateStore]
      have := ih { t with mem := record t.mem e }
        (updateStore fs p (acc ++ [e])) p (acc ++ [e]) h1 h2
      simpa using this

/-- Every price pair in the static table is componentwise non-negative. -/
theorem price_table_nonneg : ∀ kv ∈ PRICING, 0 ≤ kv.2.1 ∧ 0 ≤ kv.2.2 := by
  norm_num [PRICING]

/-- A successful lookup returns a price pair of the table. -/
theorem lookupPrice_mem {s : String} {p : ℚ × ℚ}
    (h : lookupPrice s = some p) : ∃ kv ∈ PRICING, kv.2 = p := by
  unfold lookupPrice at h
  cases hf : PRICING.find? (fun kv => kv.1 == s) with
  | some kv =>
      rw [hf] at h
      exact ⟨kv, List.mem_of_find?_eq_some hf, by injection h⟩
  | none =>
      rw [hf] at h
      cases hg : PRICING.find? (fun kv => relatedKey s kv.1) with
      | some kv =>
          rw [hg] at h
          simp only [Option.map_some] at h
          exact ⟨kv, List.mem_of_find?_eq_some hg, by injection h⟩
      | none =>
          rw [hg] at h
          simp at h

/-- `calculate` never returns a negative cost. -/
theorem calculate_nonneg (m : String) (i o : ℕ) : 0 ≤ calculate m i o := by
  unfold calculate
  cases h : lookupPrice (lowerStr m) with
  | none => simp
  | some p =>
      obtain ⟨kv, hmem, hkv⟩ := lookupPrice_mem h
      obtain ⟨h1, h2⟩ := price_table_nonneg kv hmem
      rw [hkv] at h1 h2
      have : (0:ℚ) ≤ (i : ℚ) * p.1 + (o : ℚ) * p.2 :=
        add_nonneg (mul_nonneg (Nat.cast_nonneg i) h1)
          (mul_nonneg (Nat.cast_nonneg o) h2)
      positivity

/-- A model name with no exact and no prefix relation to any table key
resolves to cost `0`. -/
theorem calculate_unknown (m : String) (i o : ℕ)
    (h : ∀ kv ∈ PRICING, kv.1 ≠ lowerStr m ∧
      relatedKey (lowerStr m) kv.1 = false) :
    calculate m i o = 0 := by
  have h1 : PRICING.find? (fun kv => kv.1 == lowerStr m) = none := by
    apply List.find?_eq_none.mpr
    intro kv hm
    simpa using (h kv hm).1
  have h2 : PRICING.find? (fun kv => relatedKey (lowerStr m) kv.1) = none := by
    apply List.find?_eq_none.mpr
    intro kv hm
    simp [(h kv hm).2]
  unfold calculate lookupPrice
  rw [h1, h2]
  simp

/-- Cost lookup only depends on the lowercased model name. -/
theorem calculate_lower_congr (m1 m2 : String) (i o : ℕ)
    (h : lowerStr m1 = lowerStr m2) : calculate m1 i o = calculate m2 i o := by
  unfold calculate
  rw [h]

/-- Patching providers never touches the shared current-function slot. -/
theorem patchProvider_currentFunction (t : TrackerId) (s : InterceptorState) :
    (patchProvider t s).currentFunction = s.currentFunction := by
  unfold patchProvider
  split <;> rfl

/-- `activate` never touches the shared current-function slot. -/
theorem activate_currentFunction (t : TrackerId) (s : InterceptorState) :
    (activate t s).currentFunction = s.currentFunction :=
  patchProvider_currentFunction t s

/-- The `finally` of the `@profile` wrapper restores the shared
current-function slot to its pre-entry value, whatever the body did and
whether or not it raised. -/
theorem profileRun_restores (name : String)
    (body : InterceptorState → InterceptorState × Bool) (s : InterceptorState) :
    (profileRun name body s).1.currentFunction = s.currentFunction := by
  simp [profileRun, set_current_function, activate_currentFunction]

/-! ## The claims -/

/-- C8: PriceResolver contract: for every model name and token counts
`calculate` returns a non-negative USD cost; a model name with no exact or
prefix relation to any key of the static table resolves to exactly `0`
rather than raising; matching is case-insensitive (the result depends only
on the lowercased name); and the versioned/dated name
`"gpt-4o-2024-05-13"`, which extends the table key `"gpt-4o"` as a prefix
but has no exact entry, resolves to that base key's per-million rates
(2.50 in / 10.00 out) applied to the token counts. -/
theorem priceResolver_contract :
    (∀ (m : String) (i o : ℕ), 0 ≤ calculate m i o) ∧
    (∀ (m : String) (i o : ℕ),
      (∀ kv ∈ PRICING, kv.1 ≠ lowerStr m ∧
        relatedKey (lowerStr m) kv.1 = false) →
      calculate m i o = 0) ∧
    (∀ (m1 m2 : String) (i o : ℕ), lowerStr m1 = lowerStr m2 →
      calculate m1 i o = calculate m2 i o) ∧
    (∀ (i o : ℕ), calculate "gpt-4o-2024-05-13" i o
      = ((i : ℚ) * 2.50 + (o : ℚ) * 10.00) / 1000000) ∧
    lookupPrice (lowerStr "gpt-4o-2024-05-13")
      = lookupPrice (lowerStr "gpt-4o") :=
  ⟨calculate_nonneg, calculate_unknown, calculate_lower_congr,
   fun _ _ => rfl, rfl⟩

/-- Witness for C8: the unknown-model and case-insensitivity clauses hold
at the concrete inputs of `tests/test_pricing.py`. -/
theorem priceResolver_contract_witness :
    calculate "not-a-real-model-xyz" 1000 500 = 0 ∧
    calculate "GPT-4O" 1000 500 = calculate "gpt-4o" 1000 500 :=
  ⟨priceResolver_contract.2.1 "not-a-real-model-xyz" 1000 500 (by decide),
   priceResolver_contract.2.2.1 "GPT-4O" "gpt-4o" 1000 500 (by decide)⟩

/-- C7: Aggregate self-consistency of the Ledger: after every sequence of
`record` calls, `total_calls()` equals `len(records())`, `total_tokens()`
equals the sum of `input_tokens + output_tokens` over the current records,
and the values of `cost_by_function()` sum to `total_cost()`, as do the
values of `cost_by_model()`. -/
theorem ledger_aggregates_consistent (es : List CallRecord) :
    total_calls (es.foldl record emptyLedger)
      = (records (es.foldl record emptyLedger)).length ∧
    total_tokens (es.foldl record emptyLedger)
      = ((records (es.foldl record emptyLedger)).map
          (fun r => r.input_tokens + r.output_tokens)).sum ∧
    ((cost_by_function (es.foldl record emptyLedger)).map (·.2)).sum
      = total_cost (es.foldl record emptyLedger) ∧
    ((cost_by_model (es.foldl record emptyLedger)).map (·.2)).sum
      = total_cost (es.foldl record emptyLedger) :=
  ⟨rfl, rfl, costBy_sum _ _, costBy_sum _ _⟩

/-- C6: Concurrency contract of the Ledger: each `record` call is one
atomic append (it holds the tracker's lock), so a run of N concurrent
writers each issuing M `record` calls is an interleaving of the per-writer
call sequences; after any such interleaving `total_calls()` is exactly
`N * M` — no event lost, none duplicated. -/
theorem ledger_concurrent_total_calls (N M : ℕ)
    (writers : List (List CallRecord)) (ops : List CallRecord)
    (hN : writers.length = N) (hM : ∀ w ∈ writers, w.length = M)
    (hI : IsInterleaving writers ops) :
    total_calls (ops.foldl record emptyLedger) = N * M := by
  have h1 : total_calls (ops.foldl record emptyLedger) = ops.length := by
    rw [foldl_record]
    simp [total_calls, emptyLedger]
  rw [h1, interleaving_length hI, sum_const_length writers M hM, hN]

/-- Witness for C6: two writers with one `record` call each, interleaved
first-then-second, leave exactly `2 * 1` recorded calls. -/
theorem ledger_concurrent_total_calls_witness :
    total_calls ([sampleRec, sampleRec].foldl record emptyLedger) = 2 * 1 :=
  ledger_concurrent_total_calls 2 1 [[sampleRec], [sampleRec]]
    [sampleRec, sampleRec] rfl
    (by
      intro w hw
      simp only [List.mem_cons, List.not_mem_nil, or_false] at hw
      rcases hw with h | h <;> rw [h]
      · rfl
      · rfl)
    (IsInterleaving.step [[sampleRec], [sampleRec]] 0 sampleRec [] [sampleRec]
      rfl
      (IsInterleaving.step [[], [sampleRec]] 1 sampleRec [] [] rfl
        (IsInterleaving.done [[], []]
          (by
            intro l hl
            simp only [List.mem_cons, List.not_mem_nil, or_false] at hl
            rcases hl with h | h <;> exact h))))

/-- C9: Persistence round-trip: recording the events `es` through a tracker
bound to backing store `p` (created fresh), then opening a second tracker
on the same store, loads exactly `es`: same count, same insertion order,
every field (cost included) equal to the recorded value. -/
theorem persistence_roundtrip (p : ℕ) (es : List CallRecord) (fs0 : FileStore)
    (hnew : fs0 p = none) :
    load_from_db (newTracker p (runRecords (newTracker p fs0) es).2).1
        (newTracker p (runRecords (newTracker p fs0) es).2).2 = es ∧
    (load_from_db (newTracker p (runRecords (newTracker p fs0) es).2).1
        (newTracker p (runRecords (newTracker p fs0) es).2).2).length
      = es.length := by
  have h0 : (newTracker p fs0).1.persistPath = some p := rfl
  have h1 : (newTracker p fs0).2 p = some [] := by
    simp [newTracker, updateStore, hnew]
  have h2 : (runRecords (newTracker p fs0) es).2 p = some es := by
    have := (runRecords_store es (newTracker p fs0).1 (newTracker p fs0).2
      p [] h0 h1).1
    simpa using this
  generalize hfs : (runRecords (newTracker p fs0) es).2 = fs1 at h2 ⊢
  refine ⟨?_, ?_⟩ <;> simp [load_from_db, newTracker, updateStore, h2]

/-- Witness for C9: one event with `cost_usd = 0.042` recorded on a fresh
store is reloaded intact by a second tracker instance. -/
theorem persistence_roundtrip_witness :
    load_from_db
        (newTracker 0 (runRecords (newTracker 0 emptyFS) [persistedRec]).2).1
        (newTracker 0 (runRecords (newTracker 0 emptyFS) [persistedRec]).2).2
      = [persistedRec] ∧
    (load_from_db
        (newTracker 0 (runRecords (newTracker 0 emptyFS) [persistedRec]).2).1
        (newTracker 0 (runRecords (newTracker 0 emptyFS) [persistedRec]).2).2).length
      = [persistedRec].length :=
  persistence_roundtrip 0 [persistedRec] emptyFS rfl

/-- C3: Exception-safe scope restoration: for every profiled function the
`finally` clause restores the current attribution to exactly its pre-entry
value, whether the body returned or raised; in particular after entering
scope `"A"`, then nested scope `"B"`, and raising inside `"B"`, the point
inside `"A"` just after the exception has propagated out of `"B"` reads
current attribution `"A"` — not `"B"` and not the `"<unknown>"` sentinel. -/
theorem profile_scope_restoration :
    (∀ (name : String) (body : InterceptorState → InterceptorState × Bool)
        (s : InterceptorState),
      (profileRun name body s).1.currentFunction = s.currentFunction) ∧
    (∀ (bodyB : InterceptorState → InterceptorState × Bool)
        (s : InterceptorState),
      (profileRun "B" bodyB
          (set_current_function "A" (activate 0 s))).1.currentFunction
        = "A" ∧
      ("A" : String) ≠ "B" ∧ ("A" : String) ≠ "<unknown>") := by
  refine ⟨profileRun_restores, fun bodyB s => ⟨?_, by decide, by decide⟩⟩
  rw [profileRun_restores]
  rfl

/-- C5: A patched SDK method always hands back the provider's original
response, and when extracting usage fails — an exception anywhere inside
`_record`'s try-body (`exn`), or a missing usage payload — nothing
propagates and no event is recorded: every tracker's contents are exactly
as before the call. -/
theorem patched_create_safe (s : InterceptorState) (resp : OpenAIResponse)
    (model : String) (dur : ℚ) (exn : Bool) :
    (openaiCall s resp model dur exn).1 = resp ∧
    ((exn = true ∨ resp.usage = none) →
      ∀ q, (openaiCall s resp model dur exn).2.ledgers q = s.ledgers q) := by
  constructor
  · unfold openaiCall
    by_cases hp : s.patched
    · simp only [hp, if_true]
      cases s.bound <;> rfl
    · simp [hp]
  · intro h q
    unfold openaiCall
    by_cases hp : s.patched
    · simp only [hp, if_true]
      cases hb : s.bound with
      | none => rfl
      | some t =>
          have hno2 : openaiRecord (s.ledgers t) [s.currentFunction]
              resp model dur exn = s.ledgers t := by
            rcases h with h | h <;> simp [openaiRecord, h]
          simp only [hno2, updateLedger]
          by_cases hq : q = t <;> simp [hq]
    · simp [hp]

/-- Witness for C5: with the patch installed and a response carrying no
usage payload, the call returns the original response and leaves the
global tracker untouched. -/
theorem patched_create_safe_witness :
    (openaiCall (activate 0 initState) { usage := none } "gpt-4o" 1 false).1
      = { usage := none } ∧
    (openaiCall (activate 0 initState)
        { usage := none } "gpt-4o" 1 false).2.ledgers 0
      = (activate 0 initState).ledgers 0 :=
  ⟨(patched_create_safe (activate 0 initState)
      { usage := none } "gpt-4o" 1 false).1,
   (patched_create_safe (activate 0 initState)
      { usage := none } "gpt-4o" 1 false).2 (Or.inr rfl) 0⟩

/-- Counterexample to C1 as stated: session `s1` (tracker 1) enters, then
session `s2` (tracker 2) enters; `patch` returns early because `_patched`
is already set, so tracker 2 is never bound. A provider call made while
`s2` is the innermost active session records its event — attributed to
`"s2"` — into tracker 1, and tracker 2 stays empty: the event recorded
under one session appears in the other session's ledger. -/
theorem session_routing_counterexample :
    (openaiCall (sessionEnter 2 "s2" (sessionEnter 1 "s1" initState))
        okResp "gpt-4o" 1 false).2.ledgers 2 = [] ∧
    (openaiCall (sessionEnter 2 "s2" (sessionEnter 1 "s1" initState))
        okResp "gpt-4o" 1 false).2.ledgers 1
      = [{ function_name := "s2", call_stack := ["s2"], model := "gpt-4o",
           provider := "openai", input_tokens := 5, output_tokens := 7,
           cost_usd := calculate "gpt-4o" 5 7, duration_ms := 1 }] :=
  ⟨rfl, rfl⟩

/-- C1 amended (as forced by the counterexample): destination-ledger
resolution is patch-time, not context-scoped: a provider call records into
the tracker captured when the provider was first patched. For a session
activated from an unpatched state this is the session's own tracker, and a
`@profile` function nested inside the session still routes there, because
its re-activation with the global tracker does not rebind; but a second
session entered while the patch is already installed does not get its own
routing (see the counterexample). -/
theorem session_routing_patch_time (s : InterceptorState) (t g : TrackerId)
    (sname fname : String) (u : OpenAIUsage) (model : String) (dur : ℚ)
    (hun : s.patched = false) :
    (sessionEnter t sname s).bound = some t ∧
    (set_current_function fname
        (activate g (sessionEnter t sname s))).bound = some t ∧
    (openaiCall (set_current_function fname
        (activate g (sessionEnter t sname s)))
        { usage := some u } model dur false).2.ledgers t
      = s.ledgers t ++
        [{ function_name := fname, call_stack := [fname], model := model,
           provider := "openai", input_tokens := u.prompt_tokens.getD 0,
           output_tokens := u.completion_tokens.getD 0,
           cost_usd := calculate model (u.prompt_tokens.getD 0)
             (u.completion_tokens.getD 0),
           duration_ms := dur }] ∧
    (∀ q, q ≠ t →
      (openaiCall (set_current_function fname
          (activate g (sessionEnter t sname s)))
          { usage := some u } model dur false).2.ledgers q = s.ledgers q) := by
  have hb : (sessionEnter t sname s).bound = some t := by
    simp [sessionEnter, activate, set_current_function, patchProvider, hun]
  have hb2 : (set_current_function fname
      (activate g (sessionEnter t sname s))).bound = some t := by
    simp [sessionEnter, activate, set_current_function, patchProvider, hun]
  have hp2 : (set_current_function fname
      (activate g (sessionEnter t sname s))).patched = true := by
    simp [sessionEnter, activate, set_current_function, patchProvider, hun]
  have hcf : (set_current_function fname
      (activate g (sessionEnter t sname s))).currentFunction = fname := rfl
  have hled : ∀ q, (set_current_function fname
      (activate g (sessionEnter t sname s))).ledgers q = s.ledgers q := by
    intro q
    simp [sessionEnter, activate, set_current_function, patchProvider, hun]
  refine ⟨hb, hb2, ?_, ?_⟩
  · simp only [openaiCall, hp2, if_true, hb2, hcf, updateLedger, hled,
      openaiRecord, record]
    simp [hled]
  · intro q hq
    simp only [openaiCall, hp2, if_true, hb2, updateLedger]
    simp [hq, hled]

/-- Witness for C1 amended: from a fresh state, session `s1` on tracker 1
with a nested profiled `helper` re-activating the global tracker 0: the
provider call lands in tracker 1 and tracker 0 stays untouched. -/
theorem session_routing_patch_time_witness :
    (sessionEnter 1 "s1" initState).bound = some 1 ∧
    (set_current_function "helper"
        (activate 0 (sessionEnter 1 "s1" initState))).bound = some 1 ∧
    (openaiCall (set_current_function "helper"
        (activate 0 (sessionEnter 1 "s1" initState)))
        { usage := some { prompt_tokens := some 5, completion_tokens := some 7 } }
        "gpt-4o" 1 false).2.ledgers 1
      = initState.ledgers 1 ++
        [{ function_name := "helper", call_stack := ["helper"],
           model := "gpt-4o", provider := "openai", input_tokens := 5,
           output_tokens := 7, cost_usd := calculate "gpt-4o" 5 7,
           duration_ms := 1 }] ∧
    (∀ q, q ≠ 1 →
      (openaiCall (set_current_function "helper"
          (activate 0 (sessionEnter 1 "s1" initState)))
          { usage := some { prompt_tokens := some 5, completion_tokens := some 7 } }
          "gpt-4o" 1 false).2.ledgers q = initState.ledgers q) := by
  have h := session_routing_patch_time initState 1 0 "s1" "helper"
    { prompt_tokens := some 5, completion_tokens := some 7 } "gpt-4o" 1 rfl
  exact h

/-- Counterexample to C2 as stated: profiled `A` calls profiled `B`; the
provider call made while `B` executes is recorded with
`call_stack = ["B"]` — the shared slot holds a single name — not
`["A", "B"]`. -/
theorem nested_stack_counterexample :
    ((profileRun "A" (fun s => profileRun "B" (callBody okResp "gpt-4o") s)
        initState).1.ledgers 0).map (·.call_stack) = [["B"]] ∧
    (["B"] : List String) ≠ ["A", "B"] :=
  ⟨rfl, by decide⟩

/-- C2 amended (as forced by the counterexample): the attribution state is
the single shared slot `_current_function[0]`, so an event recorded while
`B` executes carries `function_name = "B"` and `call_stack = ["B"]` (the
one-element copy of the slot), and an event recorded inside `A` after `B`
has returned carries `function_name = "A"` and `call_stack = ["A"]` —
`B` is the innermost attributed function while it runs, and attribution
falls back to `A` after `B` returns, but no outer-to-inner chain is kept. -/
theorem nested_attribution_amended :
    ((profileRun "A" (outerBody okResp "gpt-4o") initState).1.ledgers 0).map
        (fun r => (r.function_name, r.call_stack))
      = [("B", ["B"]), ("A", ["A"])] :=
  rfl

/-- Counterexample to C4 as stated: sessions `s1` and `s2` are both active;
`s1` exits, and `Session.__exit__` deactivates unconditionally, removing
the patches while `s2` still needs them. The next provider call inside the
surviving session `s2` is not recorded into any tracker: the patch flag is
down and trackers 1, 2 and the global tracker 0 all stay empty. -/
theorem deactivate_while_active_counterexample :
    (openaiCall (sessionExit (sessionEnter 2 "s2" (sessionEnter 1 "s1" initState)))
        okResp "gpt-4o" 1 false).2.patched = false ∧
    (openaiCall (sessionExit (sessionEnter 2 "s2" (sessionEnter 1 "s1" initState)))
        okResp "gpt-4o" 1 false).2.ledgers 0 = [] ∧
    (openaiCall (sessionExit (sessionEnter 2 "s2" (sessionEnter 1 "s1" initState)))
        okResp "gpt-4o" 1 false).2.ledgers 1 = [] ∧
    (openaiCall (sessionExit (sessionEnter 2 "s2" (sessionEnter 1 "s1" initState)))
        okResp "gpt-4o" 1 false).2.ledgers 2 = [] :=
  ⟨rfl, rfl, rfl, rfl⟩

/-- C4 amended (as forced by the counterexample): deactivation is
unconditional, not reference-counted: any session exit removes the
provider patches regardless of other active scopes, and afterwards no
provider call records anything into any tracker until a new activation
happens. -/
theorem session_exit_unconditional_deactivate (s : InterceptorState) :
    (sessionExit s).patched = false ∧
    (sessionExit s).bound = none ∧
    ∀ (resp : OpenAIResponse) (model : String) (dur : ℚ) (exn : Bool)
      (q : TrackerId),
      (openaiCall (sessionExit s) resp model dur exn).2.ledgers q
        = s.ledgers q :=
  ⟨rfl, rfl, fun _ _ _ _ _ => rfl⟩

/-- C10: patch/unpatch round-trip: for each provider module, `unpatch`
after a successful `patch` from the clean module state (nothing patched,
no saved originals) restores the SDK entry points (`Completions.create`
and `AsyncCompletions.create` for OpenAI,
`GenerativeModel.generate_content` for Google) to the exact original
function objects and resets `_patched` to `False` — the whole module state
returns to what it was; and `unpatch` when no patch is active changes
nothing. -/
theorem patch_unpatch_roundtrip :
    (∀ (α : Type) (m : OpenAIModule α) (asyncOk : Bool) (pc pa : α),
      m.patched = false → m.origCreate = none → m.origAcreate = none →
      (patchOpenAI true asyncOk pc pa m).2 = true ∧
      unpatchOpenAI true (patchOpenAI true asyncOk pc pa m).1 = m) ∧
    (∀ (α : Type) (m : OpenAIModule α) (sdkOk : Bool),
      m.patched = false → unpatchOpenAI sdkOk m = m) ∧
    (∀ (α : Type) (m : GoogleModule α) (pg : α),
      m.patched = false → m.origGenerate = none →
      (patchGoogle true pg m).2 = true ∧
      unpatchGoogle true (patchGoogle true pg m).1 = m) ∧
    (∀ (α : Type) (m : GoogleModule α) (sdkOk : Bool),
      m.patched = false → unpatchGoogle sdkOk m = m) := by
  refine ⟨?_, ?_, ?_, ?_⟩
  · intro α m asyncOk pc pa hp hc ha
    cases m
    cases asyncOk <;> simp_all [patchOpenAI, unpatchOpenAI]
  · intro α m sdkOk hp
    simp [unpatchOpenAI, hp]
  · intro α m pg hp hg
    cases m
    simp_all [patchGoogle, unpatchGoogle]
  · intro α m sdkOk hp
    simp [unpatchGoogle, hp]

/-- Witness for C10: the round-trip and the no-op `unpatch` evaluated on a
concrete clean OpenAI module state and a concrete clean Google module
state (function objects numbered 10, 11, 20). -/
theorem patch_unpatch_roundtrip_witness :
    (patchOpenAI true true 100 101
        ⟨10, 11, none, none, false⟩).2 = true ∧
    unpatchOpenAI true (patchOpenAI true true 100 101
        (⟨10, 11, none, none, false⟩ : OpenAIModule ℕ)).1
      = ⟨10, 11, none, none, false⟩ ∧
    unpatchOpenAI true (⟨10, 11, none, none, false⟩ : OpenAIModule ℕ)
      = ⟨10, 11, none, none, false⟩ ∧
    (patchGoogle true 200 (⟨20, none, false⟩ : GoogleModule ℕ)).2 = true ∧
    unpatchGoogle true (patchGoogle true 200
        (⟨20, none, false⟩ : GoogleModule ℕ)).1
      = ⟨20, none, false⟩ ∧
    unpatchGoogle false (⟨20, none, false⟩ : GoogleModule ℕ)
      = ⟨20, none, false⟩ :=
  ⟨(patch_unpatch_roundtrip.1 ℕ ⟨10, 11, none, none, false⟩ true 100 101
      rfl rfl rfl).1,
   (patch_unpatch_roundtrip.1 ℕ ⟨10, 11, none, none, false⟩ true 100 101
      rfl rfl rfl).2,
   patch_unpatch_roundtrip.2.1 ℕ ⟨10, 11, none, none, false⟩ true rfl,
   (patch_unpatch_roundtrip.2.2.1 ℕ ⟨20, none, false⟩ 200 rfl rfl).1,
   (patch_unpatch_roundtrip.2.2.1 ℕ ⟨20, none, false⟩ 200 rfl rfl).2,
   patch_unpatch_roundtrip.2.2.2 ℕ ⟨20, none, false⟩ false rfl⟩

end LLMSpy
